import Mathlib

/-!
Verification development for the mcp-manager release orchestration engine.

The definitions below are a shallow embedding of the TypeScript sources:
* `WorkerGenerator` (src/unnamed/part_020, second revision — the one with
  `toSafeIdentifier`, `generateZodSchema` and the auth helpers),
* `lib/bindings.ts` (`extractBindings`, `mergeBindingConfig`),
* `McpOperationDO.executePublish` (durable-objects/McpOperationDO.ts, first
  revision — the drizzle one that emits deployment progress events),
* `RollbackService.rollback` (src/unnamed/part_021, second revision) and the
  rollback route of `versionRoutes` (src/unnamed/part_024, first revision),
* `DeploymentStateDO` (durable-objects/DeploymentStateDO.ts).

JavaScript strings are modelled as Lean `String`s (lists of characters);
machine-irrelevant external effects (the Cloudflare deploy API call, clock
reads, UUID generation) are threaded as explicit parameters.
-/

namespace McpManager

/-! ### Small string/list helpers (JS string primitives) -/

/-- Check that `pat` is an initial segment of `l` (JS `String.startsWith` on
character lists). -/
def listStartsWith : List Char → List Char → Bool
  | [], _ => true
  | p :: ps, l =>
      match l with
      | [] => false
      | c :: cs => p == c && listStartsWith ps cs

/-- Containment of `needle` in `haystack` at some offset (JS
`String.includes`, used only in correctness statements). -/
def containsAt (needle haystack : List Char) (i : Nat) : Bool :=
  listStartsWith needle (haystack.drop i)

/-- Number of offsets of `haystack` at which `needle` occurs (counts
overlapping occurrences; used to state the duplicate-declaration property). -/
def countOccurrences (haystack needle : String) : Nat :=
  (List.range (haystack.toList.length + 1)).countP
    (fun i => containsAt needle.toList haystack.toList i)

/-- Proposition: `needle` occurs somewhere inside `haystack`. -/
def containsStr (haystack needle : String) : Prop :=
  ∃ i, containsAt needle.toList haystack.toList i = true

instance (haystack needle : String) : Decidable (containsStr haystack needle) := by
  unfold containsStr
  by_cases h : (List.range (haystack.toList.length + 1)).any
      (fun i => containsAt needle.toList haystack.toList i) = true
  · exact Decidable.isTrue (by
      rcases List.any_eq_true.mp h with ⟨i, _, hi⟩
      exact ⟨i, hi⟩)
  · exact Decidable.isFalse (by
      rintro ⟨i, hi⟩
      by_cases hlen : i < haystack.toList.length + 1
      · exact h (List.any_eq_true.mpr ⟨i, List.mem_range.mpr hlen, hi⟩)
      · have hdrop : haystack.toList.drop i = [] := by
          apply List.drop_eq_nil_of_le
          omega
        rw [containsAt, hdrop] at hi
        cases hn : needle.toList with
        | nil =>
            refine h (List.any_eq_true.mpr ⟨0, List.mem_range.mpr (by omega), ?_⟩)
            show listStartsWith needle.toList (haystack.toList.drop 0) = true
            rw [hn]
            rfl
        | cons c cs => rw [hn] at hi; simp [listStartsWith] at hi)

/-- JS `Array.prototype.join(sep)`: empty array gives the empty string, and
`sep` is placed between consecutive elements. -/
def joinSep (sep : String) : List String → String
  | [] => ""
  | [s] => s
  | s :: rest => s ++ sep ++ joinSep sep rest

/-! ### WorkerGenerator.toSafeIdentifier (src/unnamed/part_020) -/

/-- Suffix test (`String.prototype.endsWith` / Lean's `String.endsWith`),
implemented over character lists so that it reduces in the kernel. -/
def strEndsWith (s suffix : String) : Bool :=
  listStartsWith suffix.toList.reverse s.toList.reverse

/-- JS word character, the class `[a-zA-Z0-9_]` used by the sanitizer's
regular expressions. -/
def isWordChar (c : Char) : Bool :=
  (('a' ≤ c && c ≤ 'z') || ('A' ≤ c && c ≤ 'Z') || ('0' ≤ c && c ≤ '9') || c == '_')

/-- ASCII digit test, the `/^[0-9]/` check of `toSafeIdentifier`. -/
def isAsciiDigit (c : Char) : Bool := '0' ≤ c && c ≤ '9'

/-- Embeds `WorkerGenerator.toSafeIdentifier`: replace every character
outside `[a-zA-Z0-9_]` with an underscore, return the fixed token `tool`
when the result is empty, and put `tool_` in front when the result starts
with a digit. -/
def toSafeIdentifier (name : String) : String :=
  let normalized := String.mk (name.toList.map (fun c => if isWordChar c then c else '_'))
  if normalized.toList = [] then "tool"
  else if isAsciiDigit (normalized.toList.headD ' ') then "tool_" ++ normalized
  else normalized

/-- Property definition for the spec's notion of a legal bare identifier:
the regular language `[A-Za-z_][A-Za-z0-9_]*`. -/
def isLegalIdentifier (s : String) : Bool :=
  match s.toList with
  | [] => false
  | c :: rest =>
      ((('a' ≤ c && c ≤ 'z') || ('A' ≤ c && c ≤ 'Z') || c == '_') && rest.all isWordChar)

/-! ### JSON values (the `Record<string, any>` inputs of the generator) -/

/-- JSON values, the shape of `tool.inputSchema` and its subschemas. -/
inductive Json where
  | null
  | bool (b : Bool)
  | num (n : Int)
  | str (s : String)
  | arr (items : List Json)
  | obj (fields : List (String × Json))
deriving Repr

/-- JS truthiness of a JSON value (`undefined` is represented by a missing
`Option`). Non-integral numbers are not modelled. -/
def truthy : Json → Bool
  | .null => false
  | .bool b => b
  | .num n => n != 0
  | .str s => s != ""
  | .arr _ => true
  | .obj _ => true

/-- Truthiness of a possibly-absent value. -/
def truthyOpt : Option Json → Bool
  | none => false
  | some j => truthy j

/-- JS property read `o[key]` on an object: first field with the given key. -/
def jLookup (fields : List (String × Json)) (key : String) : Option Json :=
  match fields.find? (fun kv => kv.1 == key) with
  | some kv => some kv.2
  | none => none

/-- Strict string equality test `v === s` against a possibly-absent value. -/
def typeIs (t : Option Json) (s : String) : Bool :=
  match t with
  | some (.str v) => v == s
  | _ => false

/-- Lowercase hex digit of a value below 16. -/
def hexDigitChar (n : Nat) : Char :=
  if n < 10 then Char.ofNat (48 + n) else Char.ofNat (87 + n)

/-- One character of `JSON.stringify` string escaping. -/
def escJsonChar (c : Char) : String :=
  if c == '"' then "\\\""
  else if c == '\\' then "\\\\"
  else if c == '\x08' then "\\b"
  else if c == '\x0c' then "\\f"
  else if c == '\n' then "\\n"
  else if c == '\r' then "\\r"
  else if c == '\t' then "\\t"
  else if c.toNat < 32 then
    "\\u00" ++ String.mk [hexDigitChar (c.toNat / 16), hexDigitChar (c.toNat % 16)]
  else String.singleton c

/-- `JSON.stringify` of a string. -/
def jsQuote (s : String) : String :=
  "\"" ++ String.join (s.toList.map escJsonChar) ++ "\""

/-- `JSON.stringify` of a JSON value (compact form, no spacing). -/
def jsonStringify : Json → String
  | .null => "null"
  | .bool true => "true"
  | .bool false => "false"
  | .num n => toString n
  | .str s => jsQuote s
  | .arr l => "[" ++ joinSep "," (l.attach.map (fun x => jsonStringify x.1)) ++ "]"
  | .obj f =>
      "\x7b" ++
        joinSep "," (f.attach.map (fun x => jsQuote x.1.1 ++ ":" ++ jsonStringify x.1.2)) ++
        "\x7d"
decreasing_by
  all_goals have h := List.sizeOf_lt_of_mem x.2
  all_goals try (obtain ⟨⟨a, b⟩, hx⟩ := x; simp at h ⊢)
  all_goals try simp_all
  all_goals omega

/-- JS string coercion (template-literal interpolation) of a JSON value. -/
def jsToString : Json → String
  | .null => "null"
  | .bool true => "true"
  | .bool false => "false"
  | .num n => toString n
  | .str s => s
  | .arr l => joinSep "," (l.attach.map (fun x => jsToString x.1))
  | .obj _ => "[object Object]"
decreasing_by
  all_goals have h := List.sizeOf_lt_of_mem x.2
  all_goals try simp_all
  all_goals omega

/-- A successful JS property lookup returns a structurally smaller value. -/
theorem sizeOf_jLookup {fields : List (String × Json)} {key : String} {j : Json}
    (h : jLookup fields key = some j) : sizeOf j < sizeOf (Json.obj fields) := by
  unfold jLookup at h
  cases hf : fields.find? (fun kv => kv.1 == key) with
  | none => rw [hf] at h; cases h
  | some kv =>
      rw [hf] at h
      cases h
      have hmem := List.mem_of_find?_eq_some hf
      have hs := List.sizeOf_lt_of_mem hmem
      obtain ⟨a, b⟩ := kv
      simp_all
      omega

/-- Membership test `new Set(schema.required || []).has(key)`: a string key
is `===`-equal only to string elements. Degenerate non-array `required`
values (on which the JS `new Set` would throw or iterate characters) are
outside the modelled input space. -/
def requiredHas (req : Option Json) (key : String) : Bool :=
  match req with
  | some (.arr l) => l.any (fun j => match j with | .str s => s == key | _ => false)
  | _ => false

/-- `Array.isArray` on a possibly-absent value. -/
def jsIsArray : Option Json → Bool
  | some (.arr _) => true
  | _ => false

/-- Elements of a possibly-absent array value. -/
def enumItems : Option Json → List Json
  | some (.arr l) => l
  | _ => []

/-- Embeds `WorkerGenerator.generateZodSchema`: compiles a JSON-schema-like
value into zod validator source text. `Object.entries(schema.properties || \x7b\x7d)`
is modelled for object-valued `properties` (absent or falsy `properties`
contributes no entries), and `schema.items || \x7b\x7d` compiles, for an absent or
falsy `items`, to the code of the empty schema, which is `z.any()`. -/
def generateZodSchema (schema : Json) : String :=
  match schema with
  | .obj fields =>
      let typ := jLookup fields "type"
      if typeIs typ "object" || truthyOpt (jLookup fields "properties") then
        let entries :=
          match hp : jLookup fields "properties" with
          | some (.obj pf) =>
              pf.attach.map (fun x =>
                let propertySchema := generateZodSchema x.1.2
                let maybeOptional :=
                  if requiredHas (jLookup fields "required") x.1.1 then propertySchema
                  else propertySchema ++ ".optional()"
                jsQuote x.1.1 ++ ": " ++ maybeOptional)
          | _ => []
        "z.object(\x7b " ++ joinSep ", " entries ++ " \x7d)"
      else if typeIs typ "string" then
        let enumv := jLookup fields "enum"
        if truthyOpt enumv && jsIsArray enumv && (enumItems enumv).length != 0 then
          "z.enum([" ++ joinSep ", " ((enumItems enumv).map jsonStringify) ++ "])"
        else
          let z := "z.string()"
          let z := match jLookup fields "minLength" with
                   | some v => z ++ ".min(" ++ jsToString v ++ ")"
                   | none => z
          let z := match jLookup fields "maxLength" with
                   | some v => z ++ ".max(" ++ jsToString v ++ ")"
                   | none => z
          let z := match jLookup fields "pattern" with
                   | some v => if truthy v then z ++ ".regex(new RegExp(" ++ jsonStringify v ++ "))" else z
                   | none => z
          let z := if typeIs (jLookup fields "format") "email" then z ++ ".email()" else z
          let z := if typeIs (jLookup fields "format") "uri" then z ++ ".url()" else z
          let z := if typeIs (jLookup fields "format") "uuid" then z ++ ".uuid()" else z
          z
      else if typeIs typ "number" || typeIs typ "integer" then
        let z := if typeIs typ "integer" then "z.number().int()" else "z.number()"
        let z := match jLookup fields "minimum" with
                 | some v => z ++ ".min(" ++ jsToString v ++ ")"
                 | none => z
        let z := match jLookup fields "maximum" with
                 | some v => z ++ ".max(" ++ jsToString v ++ ")"
                 | none => z
        let z := match jLookup fields "multipleOf" with
                 | some v => z ++ ".multipleOf(" ++ jsToString v ++ ")"
                 | none => z
        z
      else if typeIs typ "boolean" then
        "z.boolean()"
      else if typeIs typ "array" then
        let itemsCode :=
          match hi : jLookup fields "items" with
          | some it => if truthy it then generateZodSchema it else "z.any()"
          | none => "z.any()"
        let z := "z.array(" ++ itemsCode ++ ")"
        let z := match jLookup fields "minItems" with
                 | some v => z ++ ".min(" ++ jsToString v ++ ")"
                 | none => z
        let z := match jLookup fields "maxItems" with
                 | some v => z ++ ".max(" ++ jsToString v ++ ")"
                 | none => z
        let z := match jLookup fields "uniqueItems" with
                 | some v =>
                     if truthy v then
                       z ++ ".refine((items) => new Set(items).size === items.length, \x7b message: \"Array items must be unique\" \x7d)"
                     else z
                 | none => z
        z
      else "z.any()"
  | _ => "z.any()"
decreasing_by
  · obtain ⟨⟨a, b⟩, hmem⟩ := x
    have h1 := sizeOf_jLookup hp
    have h2 := List.sizeOf_lt_of_mem hmem
    simp only [Json.obj.sizeOf_spec, Prod.mk.sizeOf_spec] at h1 h2 ⊢
    omega
  · have h1 := sizeOf_jLookup hi
    simp only [Json.obj.sizeOf_spec] at h1 ⊢
    omega

/-! ### Handler-fragment normalization (part_020, `normalizeHandlerBody`) -/

/-- JS `\s` on the ASCII range (the Unicode space characters matched by the
JS regexp classes are outside the modelled input space). -/
def jsWhitespace (c : Char) : Bool :=
  c == ' ' || c == '\t' || c == '\n' || c == '\r' || c == '\x0b' || c == '\x0c'

/-- JS `String.prototype.trim` (over the modelled whitespace class). -/
def trimJs (s : String) : String :=
  String.mk (((s.toList.dropWhile jsWhitespace).reverse.dropWhile jsWhitespace).reverse)

/-- Test of the regexp `/\bfunction\b/`: an occurrence of `function` with no
word character on either side. -/
def containsWordFunction (s : List Char) : Bool :=
  (List.range s.length).any (fun i =>
    listStartsWith "function".toList (s.drop i)
    && (i == 0 || !isWordChar (s.getD (i - 1) ' '))
    && !isWordChar (s.getD (i + 8) ' '))

/-- Test of the regexp `/=>\s*\x7b/`: an arrow followed by optional whitespace
and an opening brace. -/
def containsArrowBrace (s : List Char) : Bool :=
  (List.range s.length).any (fun i =>
    listStartsWith ['=', '>'] (s.drop i)
    && (match (s.drop (i + 2)).dropWhile jsWhitespace with
        | '\x7b' :: _ => true
        | _ => false))

/-- The `looksLikeFunction` heuristic of `normalizeHandlerBody`. -/
def looksLikeFunction (trimmed : String) : Bool :=
  containsWordFunction trimmed.toList || containsArrowBrace trimmed.toList

/-- Balanced-brace scanning loop of `extractFunctionBody`: called just after
the opening brace with depth 1, it accumulates characters until the matching
closing brace and returns `none` when the braces never balance. -/
def scanBody : List Char → Nat → List Char → Option (List Char)
  | [], _, _ => none
  | c :: rest, depth, acc =>
      let depth := if c == '\x7b' then depth + 1 else if c == '\x7d' then depth - 1 else depth
      if depth == 0 then some acc.reverse else scanBody rest depth (c :: acc)

/-- Embeds `WorkerGenerator.extractFunctionBody`: find the first opening
brace, scan to its match, return the trimmed slice in between. -/
def extractFunctionBody (source : String) : Option String :=
  match source.toList.dropWhile (fun c => c != '\x7b') with
  | [] => none
  | _ :: rest => (scanBody rest 1 []).map (fun l => trimJs (String.mk l))

/-- Embeds `WorkerGenerator.normalizeHandlerBody`: trim, keep plain fragments
verbatim, and for fragments that look like a full function extract the brace
body (falling back to the trimmed fragment when extraction fails). -/
def normalizeHandlerBody (handler : String) : String :=
  let trimmed := trimJs handler
  if trimmed == "" then ""
  else if !looksLikeFunction trimmed then trimmed
  else
    match extractFunctionBody trimmed with
    | some extracted => extracted
    | none => trimmed

/-- JS `String.prototype.split('\n')` over character lists. -/
def splitOnNl : List Char → List (List Char)
  | [] => [[]]
  | c :: rest =>
      let r := splitOnNl rest
      if c == '\n' then [] :: r
      else
        match r with
        | [] => [[c]]
        | h :: t => (c :: h) :: t

/-- Embeds `WorkerGenerator.indent`: prepend `level` spaces to every
non-empty line. -/
def indentJs (value : String) (level : Nat) : String :=
  let pad := String.mk (List.replicate level ' ')
  joinSep "\n" (((splitOnNl value.toList).map String.mk).map
    (fun line => if line == "" then line else pad ++ line))

/-! ### Tool code generation (part_020, `generateToolsCode` and
`generateToolRegistrations`) -/

/-- One tool of a service version's config snapshot. -/
structure Tool where
  name : String
  description : String
  inputSchema : Json
  handler : String

/-- The per-tool template of `generateToolsCode`: one handler definition and
one schema definition, both named after the sanitized identifier. -/
def toolDecl (tool : Tool) : String :=
  let safeName := toSafeIdentifier tool.name
  let normalizedHandler := if tool.handler != "" then normalizeHandlerBody tool.handler else ""
  let handlerBody := if normalizedHandler != "" then indentJs normalizedHandler 2 else ""
  let schemaCode := generateZodSchema tool.inputSchema
  "\n// Tool: " ++ tool.name ++ "\nasync function " ++ safeName ++ "Handler(params, env) \x7b\n"
    ++ (if handlerBody != "" then handlerBody else "  // TODO: implement handler")
    ++ "\n\x7d\n\nconst " ++ safeName ++ "Schema = " ++ schemaCode ++ ";\n"

/-- Embeds `WorkerGenerator.generateToolsCode`. -/
def generateToolsCode (tools : List Tool) : String :=
  joinSep "\n" (tools.map toolDecl)

/-- The per-tool template of `generateToolRegistrations`. -/
def toolRegistration (tool : Tool) : String :=
  let safeName := toSafeIdentifier tool.name
  "\n    this.server.tool(\n      " ++ jsonStringify (.str tool.name) ++ ",\n      "
    ++ jsonStringify (.str tool.description) ++ ",\n      " ++ safeName
    ++ "Schema,\n      async (params) => " ++ safeName ++ "Handler(params, this.env)\n    );\n"

/-- Embeds `WorkerGenerator.generateToolRegistrations`. -/
def generateToolRegistrations (tools : List Tool) : String :=
  joinSep "\n" (tools.map toolRegistration)

/-! ### Worker script assembly (part_020, `generateWorkerScript`) -/

/-- The `MCP_WORKER_TEMPLATE` template literal of part_020 (second revision). -/
def MCP_WORKER_TEMPLATE : String :=
  "\nimport \x7b McpAgent \x7d from \"agents/mcp\";\nimport \x7b McpServer \x7d from \"@modelcontextprotocol/sdk/server/mcp.js\";\nimport \x7b z \x7d from \"zod\";\n\n// === USER CODE INJECTION POINT ===\n\x7b\x7bUSER_TOOLS\x7d\x7d\n\n// === GENERATED MCP SERVER ===\n\x7b\x7bAUTH_HELPERS\x7d\x7d\n\nexport class MyMcp extends McpAgent \x7b\n  server = new McpServer(\x7b\n    name: \"\x7b\x7bMCP_NAME\x7d\x7d\",\n    version: \"\x7b\x7bMCP_VERSION\x7d\x7d\",\n  \x7d);\n\n  async init() \x7b\n    \x7b\x7bTOOL_REGISTRATIONS\x7d\x7d\n  \x7d\n\x7d\n\nexport default \x7b\n  async fetch(request, env, ctx) \x7b\n    const url = new URL(request.url);\n    \n    \x7b\x7bAUTH_MIDDLEWARE\x7d\x7d\n    \n    if (url.pathname === \"/sse\" || url.pathname === \"/mcp\") \x7b\n      // MCP SSE endpoint\n      return MyMcp.serveSSE(\"/sse\").fetch(request, env, ctx);\n    \x7d\n    \n    return new Response(\"MCP Server\", \x7b status: 200 \x7d);\n  \x7d,\n\x7d;\n"

/-- The `AUTH_HELPERS` template literal of part_020. -/
def AUTH_HELPERS : String :=
  "\nasync function hashApiKey(apiKey) \x7b\n  const encoder = new TextEncoder();\n  const data = encoder.encode(apiKey);\n  const hashBuffer = await crypto.subtle.digest(\"SHA-256\", data);\n  const hashArray = Array.from(new Uint8Array(hashBuffer));\n  return hashArray.map((b) => b.toString(16).padStart(2, \"0\")).join(\"\");\n\x7d\n\nasync function validateOAuthToken(token, env) \x7b\n  if (!env.OAUTH_INTROSPECTION_URL || !env.OAUTH_CLIENT_ID || !env.OAUTH_CLIENT_SECRET) \x7b\n    return false;\n  \x7d\n\n  const body = new URLSearchParams(\x7b\n    token,\n    client_id: env.OAUTH_CLIENT_ID,\n    client_secret: env.OAUTH_CLIENT_SECRET,\n  \x7d);\n\n  const response = await fetch(env.OAUTH_INTROSPECTION_URL, \x7b\n    method: \"POST\",\n    headers: \x7b \"Content-Type\": \"application/x-www-form-urlencoded\" \x7d,\n    body,\n  \x7d);\n\n  if (!response.ok) \x7b\n    return false;\n  \x7d\n\n  const data = await response.json();\n  if (!data?.active) \x7b\n    return false;\n  \x7d\n\n  if (env.OAUTH_SCOPES && data.scope) \x7b\n    try \x7b\n      const requiredScopes = JSON.parse(env.OAUTH_SCOPES) as string[];\n      if (Array.isArray(requiredScopes) && requiredScopes.length > 0) \x7b\n        const grantedScopes = new Set(data.scope.split(\" \"));\n        return requiredScopes.every((scope) => grantedScopes.has(scope));\n      \x7d\n    \x7d catch \x7b\n      return false;\n    \x7d\n  \x7d\n\n  return true;\n\x7d\n"

/-- The `AUTH_TEMPLATES.public` template literal. -/
def AUTH_TEMPLATE_PUBLIC : String :=
  "\n    // Public access - no authentication required\n  "

/-- The `AUTH_TEMPLATES.api_key` template literal. -/
def AUTH_TEMPLATE_API_KEY : String :=
  "\n    const apiKey = request.headers.get(\"X-API-Key\") || url.searchParams.get(\"api_key\");\n    if (!apiKey || !env.MCP_API_KEY_HASH) \x7b\n      return new Response(\"Unauthorized\", \x7b status: 401 \x7d);\n    \x7d\n    const apiKeyHash = await hashApiKey(apiKey);\n    if (apiKeyHash !== env.MCP_API_KEY_HASH) \x7b\n      return new Response(\"Unauthorized\", \x7b status: 401 \x7d);\n    \x7d\n  "

/-- The `AUTH_TEMPLATES.oauth` template literal. -/
def AUTH_TEMPLATE_OAUTH : String :=
  "\n    const authHeader = request.headers.get(\"Authorization\");\n    if (!authHeader || !authHeader.startsWith(\"Bearer \")) \x7b\n      return new Response(\"Unauthorized\", \x7b status: 401 \x7d);\n    \x7d\n    const token = authHeader.slice(7);\n    const isValid = await validateOAuthToken(token, env);\n    if (!isValid) \x7b\n      return new Response(\"Unauthorized\", \x7b status: 401 \x7d);\n    \x7d\n  "

/-- Auth modes of an MCP service (`authType: 'public' | 'api_key' | 'oauth'`). -/
inductive AuthType where
  | public
  | api_key
  | oauth
deriving Repr, DecidableEq

/-- The `AUTH_TEMPLATES[config.authType]` lookup. -/
def authTemplate : AuthType → String
  | .public => AUTH_TEMPLATE_PUBLIC
  | .api_key => AUTH_TEMPLATE_API_KEY
  | .oauth => AUTH_TEMPLATE_OAUTH

/-- Declared binding names of a worker (`Bindings` of part_020; unused by the
second-revision generator but part of its input). -/
structure GenBindings where
  d1 : Option (List String) := none
  kv : Option (List String) := none
  r2 : Option (List String) := none
  secrets : Option (List String) := none

/-- The `McpConfig` input of `generateWorkerScript`. -/
structure McpConfig where
  name : String
  version : String
  tools : List Tool
  bindings : Option GenBindings := none
  authType : AuthType

/-- JS `String.prototype.replace` with a string pattern on character lists:
replace the first occurrence only. (The `$`-escape expansion JS applies to
replacement strings is not modelled; the placeholders replaced here never
produce one.) -/
def replaceFirstL (pat rep : List Char) : List Char → List Char
  | [] => if listStartsWith pat [] then rep else []
  | c :: rest =>
      if listStartsWith pat (c :: rest) then rep ++ (c :: rest).drop pat.length
      else c :: replaceFirstL pat rep rest

/-- JS `String.prototype.replace` with a string pattern. -/
def replaceFirst (s pat rep : String) : String :=
  String.mk (replaceFirstL pat.toList rep.toList s.toList)

/-- Embeds `WorkerGenerator.generateWorkerScript`: validate the config, then
substitute every placeholder of the worker template. The `!config.authType`
disjunct of the source guard cannot fire for the typed enum; `!config.name`
and `!config.version` fire exactly on empty strings. -/
def generateWorkerScript (config : McpConfig) : Except String String :=
  if config.name == "" || config.version == "" then
    .error "Invalid MCP configuration provided to WorkerGenerator"
  else
    let script := MCP_WORKER_TEMPLATE
    let script := replaceFirst script "\x7b\x7bMCP_NAME\x7d\x7d" config.name
    let script := replaceFirst script "\x7b\x7bMCP_VERSION\x7d\x7d" config.version
    let script := replaceFirst script "\x7b\x7bUSER_TOOLS\x7d\x7d" (generateToolsCode config.tools)
    let script := replaceFirst script "\x7b\x7bTOOL_REGISTRATIONS\x7d\x7d" (generateToolRegistrations config.tools)
    let script := replaceFirst script "\x7b\x7bAUTH_MIDDLEWARE\x7d\x7d" (authTemplate config.authType)
    let script := replaceFirst script "\x7b\x7bAUTH_HELPERS\x7d\x7d" AUTH_HELPERS
    .ok script

/-- Ambient effects available to the generator's runtime: a clock reading
and a random-UUID source. `generateWorkerScript` invokes neither (its source
contains no `Date.now` or `crypto.randomUUID` call), so its world-threaded
embedding ignores this argument. -/
structure EffectWorld where
  now : Nat
  uuid : String

/-- World-threaded form of `generateWorkerScript`: any effectful primitive
of the embedding reads the `EffectWorld`; the generator uses none. -/
def generateWorkerScriptW (_w : EffectWorld) (config : McpConfig) : Except String String :=
  generateWorkerScript config

/-! ### Binding extraction and merging (src/apps/mcp-manager/src/lib/bindings.ts) -/

/-- One entry of a `BindingInput` array: a bare name string or an object
carrying a name and optionally a concrete resource id (`databaseId` /
`namespaceId` / `bucketName`, uniformly modelled as `idVal`). -/
inductive BindingEntry where
  | plain (name : String)
  | configured (name : String) (idVal : Option String)

/-- The `BindingInput` type of bindings.ts. -/
structure BindingInput where
  d1 : Option (List BindingEntry) := none
  kv : Option (List BindingEntry) := none
  r2 : Option (List BindingEntry) := none
  secrets : Option (List String) := none

/-- A JS `Record<string, string>` as an insertion-ordered association list
with unique keys. -/
abbrev RecordSS := List (String × String)

/-- JS object assignment `r[k] = v`: update in place when the key exists,
append otherwise. -/
def recSet (r : RecordSS) (k v : String) : RecordSS :=
  if (r.find? (fun p => p.1 == k)).isSome then
    r.map (fun p => if p.1 == k then (k, v) else p)
  else r ++ [(k, v)]

/-- The `BindingConfig` type of bindings.ts: per-kind name-to-resource-id
records (a missing record models an unset field). -/
structure BindingConfig where
  d1 : Option RecordSS := none
  kv : Option RecordSS := none
  r2 : Option RecordSS := none

/-- The loop body of `extractBindings`' local `handle`: collect names in
order and record `name -> id` for entries whose id is truthy. -/
def handleEntries (items : List BindingEntry) : List String × RecordSS :=
  items.foldl
    (fun (acc : List String × RecordSS) item =>
      match item with
      | .plain s => (acc.1 ++ [s], acc.2)
      | .configured name idVal =>
          (acc.1 ++ [name],
            match idVal with
            | some v => if v != "" then recSet acc.2 name v else acc.2
            | none => acc.2))
    ([], [])

/-- Result type of `extractBindings`. -/
structure ExtractedBindings where
  bindings : GenBindings
  bindingConfig : BindingConfig

/-- Embeds `extractBindings` of bindings.ts: split each binding-kind array
into declared names plus a name-to-id record, keeping a field only when it
is non-empty, and normalize the secret names (dropping empty strings). -/
def extractBindings (input : Option BindingInput) : ExtractedBindings :=
  let handle := fun (items : Option (List BindingEntry)) =>
    match items with
    | none => ((none : Option (List String)), (none : Option RecordSS))
    | some l =>
        let nm := handleEntries l
        ((if nm.1.length > 0 then some nm.1 else none),
         (if nm.2.length > 0 then some nm.2 else none))
  let d1 := handle (match input with | some inp => inp.d1 | none => none)
  let kv := handle (match input with | some inp => inp.kv | none => none)
  let r2 := handle (match input with | some inp => inp.r2 | none => none)
  let secrets :=
    match input with
    | some inp =>
        match inp.secrets with
        | some l => if l.length != 0 then some (l.filter (fun s => s != "")) else none
        | none => none
    | none => none
  { bindings := { d1 := d1.1, kv := kv.1, r2 := r2.1, secrets := secrets },
    bindingConfig := { d1 := d1.2, kv := kv.2, r2 := r2.2 } }

/-- JS object spread `\x7b ...b, ...a \x7d`: the keys of `b` in order with the
values of `a` where both have the key, then the keys only `a` has. -/
def recMerge (b a : RecordSS) : RecordSS :=
  (b.map (fun p => (p.1, ((a.lookup p.1).getD p.2)))) ++
    a.filter (fun p => (b.lookup p.1).isNone)

/-- The local `merge` of `mergeBindingConfig`: `undefined` when both sides
are unset, otherwise the spread with `a` (the primary side) overriding. -/
def mergeRecords (a b : Option RecordSS) : Option RecordSS :=
  match a, b with
  | none, none => none
  | _, _ => some (recMerge (b.getD []) (a.getD []))

/-- Embeds `mergeBindingConfig` of bindings.ts. -/
def mergeBindingConfig (primary fallback : BindingConfig) : BindingConfig :=
  { d1 := mergeRecords primary.d1 fallback.d1,
    kv := mergeRecords primary.kv fallback.kv,
    r2 := mergeRecords primary.r2 fallback.r2 }

/-- Lookup of a binding name in a possibly-unset record. -/
def lookupRec (r : Option RecordSS) (k : String) : Option String :=
  (r.getD []).lookup k

/-! ### Version registry state (D1 tables `mcp_servers`, `mcp_versions`,
`deployments`, plus the R2 bundle keys) -/

/-- Operation status values. -/
inductive OpStatus where
  | pending
  | in_progress
  | completed
  | failed
deriving Repr, DecidableEq

/-- One `mcp_versions` row. The `config_snapshot` JSON text is modelled in
parsed form (its `tools` and `bindings`); JSON (de)serialization is out of
scope. `is_active` is the 0/1 integer the SQL updates write. -/
structure VersionRecord where
  id : String
  mcpId : String
  version : String
  bundleKey : String
  configTools : List Tool := []
  configBindings : Option BindingInput := none
  isActive : Nat := 0
  deployedAt : Option Nat := none

/-- One `mcp_servers` row, joined with its `mcp_auth_configs` auth type
(the rollback query's left join). A missing or falsy `auth_type` reads as
`none`. -/
structure ServerRecord where
  id : String
  currentVersion : Option String := none
  workerName : Option String := none
  endpointUrl : Option String := none
  authType : Option AuthType := none
  bindings : Option BindingInput := none
  updatedAt : Nat := 0

/-- One `deployments` row. -/
structure DeploymentRecord where
  id : String
  mcpId : String
  versionId : String
  operationType : String
  status : String
  workerName : Option String := none
  errorMessage : Option String := none
  startedAt : Option Nat := none
  completedAt : Option Nat := none

/-- The registry state the coordinators read and write: the three D1 tables
and the set of R2 bundle keys present. -/
structure Registry where
  servers : List ServerRecord := []
  versions : List VersionRecord := []
  deployments : List DeploymentRecord := []
  bundles : List String := []

/-- The active `mcp_versions` rows of one service. -/
def activeVersions (reg : Registry) (mcpId : String) : List VersionRecord :=
  reg.versions.filter (fun r => r.mcpId == mcpId && r.isActive == 1)

/-- `version.replace(/\./g, '-')`. -/
def dotsToDashes (v : String) : String :=
  String.mk (v.toList.map (fun c => if c == '.' then '-' else c))

/-- The worker name `mcp-$\x7bmcpId\x7d-v$\x7bversion.replace(/\./g, '-')\x7d`. -/
def workerNameFor (mcpId version : String) : String :=
  "mcp-" ++ mcpId ++ "-v" ++ dotsToDashes version

/-! ### McpOperationDO.executePublish (first revision of
durable-objects/McpOperationDO.ts) -/

/-- The `/publish` request body handed to `executePublish`. The auth
secrets built by `buildAuthSecrets` (a pure function) only feed the
external deploy call and are omitted. -/
structure PublishParams where
  mcpId : String
  version : String
  bundleKey : String
  configTools : List Tool := []
  configBindings : Option BindingInput := none
  authType : AuthType
  deploymentId : Option String := none

/-- Every observable effect of one `executePublish` run: the final registry,
the operation status `updateStatus` left behind, and the traces of progress
events, status events and log lines emitted (deployment events are posted
only when a `deploymentId` was supplied). -/
structure PublishOutcome where
  registry : Registry
  opStatus : OpStatus
  opError : Option String
  progressEvents : List (String × Nat)
  statusEvents : List (String × Option String)
  logs : List String

/-- Append an emitted deployment event when a `deploymentId` is present
(`emitProgress` / `emitStatus` return without posting otherwise). -/
def emitIf {α : Type} (dep : Option String) (xs : List α) (x : α) : List α :=
  match dep with
  | some _ => xs ++ [x]
  | none => xs

/-- Embeds `McpOperationDO.completeDeployment`: update the `deployments`
row of the given id (the `workerName` column only when one is passed). -/
def completeDeployment (dep : Option String) (status : String)
    (workerName : Option String) (errorMessage : Option String) (now : Nat)
    (reg : Registry) : Registry :=
  match dep with
  | none => reg
  | some d =>
      { reg with
        deployments := reg.deployments.map (fun r =>
          if r.id == d then
            { r with
              status := status
              completedAt := some now
              errorMessage := errorMessage
              workerName :=
                match workerName with
                | some w => if w != "" then some w else r.workerName
                | none => r.workerName }
          else r) }

/-- The `catch` block of `executePublish`: record the failed deployment,
emit the `failed` progress and status events, mark the operation failed. -/
def publishFailure (p : PublishParams) (now : Nat) (message : String)
    (st : List (String × Option String)) (pr : List (String × Nat))
    (lg : List String) (reg : Registry) : PublishOutcome :=
  let reg := completeDeployment p.deploymentId "failed" none (some message) now reg
  { registry := reg
    opStatus := .failed
    opError := some message
    progressEvents := emitIf p.deploymentId pr ("failed", 100)
    statusEvents := emitIf p.deploymentId st ("failed", some message)
    logs := lg ++ ["Deployment failed: " ++ message] }

/-- Embeds `McpOperationDO.executePublish`. External effects are explicit:
`deployResult` is the outcome of the Cloudflare `deployWorker` call (`none`
for success, `some message` for a thrown deploy error), `now` the clock and
`accountId` the Cloudflare account. The binding config handed to
`setBindingConfig` only parameterizes that external call. -/
def executePublish (p : PublishParams) (deployResult : Option String)
    (now : Nat) (accountId : String) (reg : Registry) : PublishOutcome :=
  let ext := extractBindings p.configBindings
  let st1 := emitIf p.deploymentId [] ("in_progress", (none : Option String))
  let pr1 := emitIf p.deploymentId [] ("initializing", 5)
  let lg1 := ["Fetching bundle from R2..."]
  let pr2 := emitIf p.deploymentId pr1 ("fetching_bundle", 20)
  if !(reg.bundles.contains p.bundleKey) then
    publishFailure p now "Bundle not found" st1 pr2 lg1 reg
  else
    let lg2 := lg1 ++ ["Preparing Worker script..."]
    let pr3 := emitIf p.deploymentId pr2 ("preparing_worker", 40)
    match generateWorkerScript
        { name := "mcp-" ++ p.mcpId, version := p.version, tools := p.configTools,
          bindings := some ext.bindings, authType := p.authType } with
    | .error e => publishFailure p now e st1 pr3 lg2 reg
    | .ok _script =>
        let lg3 := lg2 ++ ["Deploying to Cloudflare..."]
        let pr4 := emitIf p.deploymentId pr3 ("deploying", 70)
        let workerName := workerNameFor p.mcpId p.version
        match deployResult with
        | some e => publishFailure p now e st1 pr4 lg3 reg
        | none =>
            let lg4 := lg3 ++ ["Updating routing..."]
            let pr5 := emitIf p.deploymentId pr4 ("updating_routing", 85)
            let endpointUrl := "https://" ++ workerName ++ "." ++ accountId ++ ".workers.dev"
            let lg5 := lg4 ++ ["Updating MCP server status in D1..."]
            let reg : Registry :=
              { reg with
                servers := reg.servers.map (fun s =>
                  if s.id == p.mcpId then
                    { s with currentVersion := some p.version, workerName := some workerName,
                             endpointUrl := some endpointUrl, updatedAt := now }
                  else s) }
            let reg : Registry :=
              { reg with
                versions := reg.versions.map (fun r =>
                  if r.mcpId == p.mcpId && r.isActive == 1 then { r with isActive := 0 } else r) }
            let reg : Registry :=
              { reg with
                versions := reg.versions.map (fun r =>
                  if r.mcpId == p.mcpId && r.version == p.version then
                    { r with deployedAt := some now, isActive := 1 }
                  else r) }
            let reg := completeDeployment p.deploymentId "completed" (some workerName) none now reg
            let st2 := emitIf p.deploymentId st1 ("completed", (none : Option String))
            let pr6 := emitIf p.deploymentId pr5 ("completed", 100)
            { registry := reg
              opStatus := .completed
              opError := none
              progressEvents := pr6
              statusEvents := st2
              logs := lg5 ++ ["Deployment completed successfully"] }

/-! ### RollbackService.rollback (second revision of src/unnamed/part_021)
and the rollback route (first revision of src/unnamed/part_024) -/

/-- `Object.keys(bindings).length` for the `GenBindings` object built by
`extractBindings` (fields are present exactly when set). -/
def genBindingsKeyCount (b : GenBindings) : Nat :=
  (if b.d1.isSome then 1 else 0) + (if b.kv.isSome then 1 else 0) +
    (if b.r2.isSome then 1 else 0) + (if b.secrets.isSome then 1 else 0)

/-- Embeds `RollbackService.rollback`: returns the registry state when the
call returns or throws, together with the thrown message (if any).
`deployResult` and `uuid` stand for the external deploy call and
`crypto.randomUUID()`. -/
def rollbackRun (mcpId targetVersion : String) (now : Nat)
    (deployResult : Option String) (uuid : String) (reg : Registry) :
    Registry × Option String :=
  match (reg.versions.filter (fun r => r.mcpId == mcpId && r.version == targetVersion)).head? with
  | none => (reg, some ("Target version " ++ targetVersion ++ " not found for MCP " ++ mcpId))
  | some targetVersionRecord =>
      let reg : Registry :=
        { reg with
          versions := reg.versions.map (fun r =>
            if r.mcpId == mcpId && r.isActive == 1 then { r with isActive := 0 } else r) }
      let reg : Registry :=
        { reg with
          versions := reg.versions.map (fun r =>
            if r.id == targetVersionRecord.id then { r with isActive := 1, deployedAt := some now } else r) }
      match (reg.servers.filter (fun s => s.id == mcpId)).head? with
      | none => (reg, some ("MCP with ID " ++ mcpId ++ " not found"))
      | some mcp =>
          if !(reg.bundles.contains targetVersionRecord.bundleKey) then
            (reg, some ("Bundle for version " ++ targetVersion ++ " not found in R2"))
          else
            let snapshotBindings := extractBindings targetVersionRecord.configBindings
            let serverBindings := extractBindings mcp.bindings
            let bindings :=
              if genBindingsKeyCount snapshotBindings.bindings > 0 then snapshotBindings.bindings
              else serverBindings.bindings
            let _bindingConfig :=
              mergeBindingConfig snapshotBindings.bindingConfig serverBindings.bindingConfig
            let authType := match mcp.authType with | some a => a | none => AuthType.public
            match generateWorkerScript
                { name := "mcp-" ++ mcpId, version := targetVersion,
                  tools := targetVersionRecord.configTools,
                  bindings := some bindings, authType := authType } with
            | .error e => (reg, some e)
            | .ok _script =>
                match deployResult with
                | some e => (reg, some e)
                | none =>
                    let workerName := workerNameFor mcpId targetVersion
                    let reg : Registry :=
                      { reg with
                        servers := reg.servers.map (fun s =>
                          if s.id == mcpId then
                            { s with currentVersion := some targetVersion,
                                     workerName := some workerName, updatedAt := now }
                          else s) }
                    let reg : Registry :=
                      { reg with
                        deployments := reg.deployments ++
                          [{ id := uuid, mcpId := mcpId, versionId := targetVersionRecord.id,
                             operationType := "rollback", status := "completed",
                             workerName := some workerName,
                             startedAt := some now, completedAt := some now }] }
                    (reg, none)

/-- Embeds the rollback route `POST /:mcpId/:version/rollback` of
`versionRoutes`: 404 when the version row is missing, 400 when it is
already active, otherwise run the rollback (500 on a thrown error). -/
def rollbackRoute (mcpId version : String) (now : Nat)
    (deployResult : Option String) (uuid : String) (reg : Registry) :
    Nat × Registry :=
  match (reg.versions.filter (fun r => r.mcpId == mcpId && r.version == version)).head? with
  | none => (404, reg)
  | some versionRecord =>
      if versionRecord.isActive != 0 then (400, reg)
      else
        let out := rollbackRun mcpId version now deployResult uuid reg
        match out.2 with
        | some _ => (500, out.1)
        | none => (200, out.1)

/-! ### DeploymentStateDO (durable-objects/DeploymentStateDO.ts) -/

/-- One entry of the broadcaster snapshot's `logs` list. -/
structure DeploymentLog where
  level : String
  message : String
deriving Repr, DecidableEq

/-- The `DeploymentState` snapshot a `DeploymentStateDO` holds (`this.state`;
`null` before `/initialize`). -/
structure DeploymentState where
  id : String
  status : String
  logs : List DeploymentLog := []
  error : Option String := none
  startedAt : Option Nat := none
  completedAt : Option Nat := none
  createdAt : Nat := 0
  updatedAt : Nat := 0
deriving Repr, DecidableEq

/-- The durable object's full state: the snapshot plus the set of live SSE
subscribers (identified by opaque connection ids). -/
structure BroadcasterState where
  state : Option DeploymentState := none
  subscribers : List Nat := []
deriving Repr, DecidableEq

/-- HTTP request methods the durable object dispatches on. -/
inductive HttpMethod where
  | get
  | post
  | other
deriving Repr, DecidableEq

/-- The parts of a `Request` that `DeploymentStateDO.fetch` reads: method,
URL pathname, `accept` header, and (for `/initialize`) the parsed
`deploymentId` of the JSON body (`none` models an unparsable body). -/
structure DoRequest where
  method : HttpMethod
  pathname : String
  accept : Option String := none
  bodyDeploymentId : Option String := none

/-- What one `fetch` dispatch produces: the response status, the new object
state, and — for the SSE branch — the optional initial `state` message
enqueued for the new subscriber (`none` when no message is sent, which the
source only does when `this.state` is still `null`). -/
structure FetchResult where
  status : Nat
  state : BroadcasterState
  firstMessage : Option DeploymentState := none
deriving Repr, DecidableEq

/-- Embeds `DeploymentStateDO.fetch`: dispatch on the pathname suffix and
method exactly as the source does. Note there is no branch for `/log`,
`/progress` or `/update-status`; the private `addLog` / `addProgress` /
`updateStatus` handlers are unreachable from `fetch`. -/
def doFetch (s : BroadcasterState) (req : DoRequest) (connId : Nat) (now : Nat) : FetchResult :=
  if strEndsWith req.pathname "/stream" && req.accept == some "text/event-stream" then
    { status := 200
      state := { s with subscribers := s.subscribers ++ [connId] }
      firstMessage := s.state }
  else if strEndsWith req.pathname "/initialize" && req.method == .post then
    match req.bodyDeploymentId with
    | some deploymentId =>
        let s :=
          if s.state.isNone then
            { s with
              state := some
                { id := deploymentId, status := "pending", logs := [],
                  createdAt := now, updatedAt := now, startedAt := some now } }
          else s
        { status := 200, state := s }
    | none => { status := 400, state := s }
  else if strEndsWith req.pathname "/status" && req.method == .get then
    { status := (if s.state.isSome then 200 else 404), state := s }
  else if req.method == .get then
    { status := (if s.state.isSome then 200 else 404), state := s }
  else
    { status := 404, state := s }

/-- The request `McpOperationDO.postDeploymentEvent` sends for a given event
path: a POST to `http://internal$\x7bpath\x7d` with a JSON body and no
`accept: text/event-stream` header. -/
def coordinatorPost (path : String) : DoRequest :=
  { method := .post, pathname := path, accept := none, bodyDeploymentId := none }

/-! ### Helper lemmas: string containment -/

theorem listStartsWith_nil (l : List Char) : listStartsWith [] l = true := rfl

theorem listStartsWith_cons_nil (c : Char) (cs : List Char) :
    listStartsWith (c :: cs) [] = false := rfl

theorem listStartsWith_cons_cons (c : Char) (cs : List Char) (d : Char) (ds : List Char) :
    listStartsWith (c :: cs) (d :: ds) = (c == d && listStartsWith cs ds) := rfl

theorem stoList_append (a b : String) : (a ++ b).toList = a.toList ++ b.toList := rfl

theorem strAppend_assoc (a b c : String) : a ++ b ++ c = a ++ (b ++ c) := by
  apply String.ext
  exact List.append_assoc a.data b.data c.data

theorem startsWith_self_append (s y : List Char) : listStartsWith s (s ++ y) = true := by
  induction s with
  | nil => rfl
  | cons c cs ih => rw [List.cons_append, listStartsWith_cons_cons, ih]; simp

theorem startsWith_append_right {n l : List Char} (y : List Char)
    (h : listStartsWith n l = true) : listStartsWith n (l ++ y) = true := by
  induction n generalizing l with
  | nil => rfl
  | cons c cs ih =>
      cases l with
      | nil => rw [listStartsWith_cons_nil] at h; cases h
      | cons d ds =>
          rw [listStartsWith_cons_cons] at h
          rw [show d :: ds ++ y = d :: (ds ++ y) from rfl, listStartsWith_cons_cons]
          simp only [Bool.and_eq_true] at h
          simp only [Bool.and_eq_true]
          exact ⟨h.1, ih h.2⟩

theorem containsStr_of_parts (h pre n post : String) (heq : h = pre ++ (n ++ post)) :
    containsStr h n := by
  refine ⟨pre.toList.length, ?_⟩
  unfold containsAt
  rw [heq, stoList_append, stoList_append, List.drop_left]
  exact startsWith_self_append n.toList post.toList

theorem containsStr_extend_list {n h m : String} (X Y : List Char)
    (hdecomp : h.toList = X ++ (m.toList ++ Y)) (hc : containsStr m n) : containsStr h n := by
  rcases hc with ⟨i, hi⟩
  refine ⟨X.length + i, ?_⟩
  unfold containsAt at hi ⊢
  rw [hdecomp]
  have h1 : (X ++ (m.toList ++ Y)).drop (X.length + i) = (m.toList ++ Y).drop i := by
    rw [List.drop_append_eq_append_drop]
    have h2 : X.drop (X.length + i) = [] := List.drop_eq_nil_of_le (by omega)
    rw [h2]
    have h3 : X.length + i - X.length = i := by omega
    rw [h3]
    rfl
  rw [h1, List.drop_append_eq_append_drop]
  exact startsWith_append_right _ hi


/-! ### C7: sanitized tool identifiers -/

theorem isLegalIdentifier_cons (c : Char) (rest : List Char) :
    isLegalIdentifier (String.mk (c :: rest)) =
      ((('a' ≤ c && c ≤ 'z') || ('A' ≤ c && c ≤ 'Z') || c == '_') && rest.all isWordChar) := rfl

theorem sanitized_chars_are_word (name : String) :
    ∀ c ∈ name.toList.map (fun c => if isWordChar c then c else '_'), isWordChar c = true := by
  intro c hc
  rcases List.mem_map.mp hc with ⟨a, _, rfl⟩
  by_cases h : isWordChar a
  · simpa [h]
  · simp only [h]
    simp [isWordChar]

theorem toSafeIdentifier_legal (name : String) :
    isLegalIdentifier (toSafeIdentifier name) = true := by
  simp only [toSafeIdentifier]
  have hall := sanitized_chars_are_word name
  cases hl : name.toList.map (fun c => if isWordChar c then c else '_') with
  | nil => decide
  | cons c rest =>
      rw [hl] at hall
      have hc : isWordChar c = true := hall c (List.mem_cons_self c rest)
      have hrest : ∀ x ∈ rest, isWordChar x = true :=
        fun x hx => hall x (List.mem_cons_of_mem c hx)
      have hne : ¬((String.mk (c :: rest)).toList = []) := by simp
      rw [if_neg hne]
      rw [show (String.mk (c :: rest)).toList.headD ' ' = c from rfl]
      by_cases hd : isAsciiDigit c = true
      · rw [if_pos hd]
        rw [show ("tool_" ++ String.mk (c :: rest))
              = String.mk ('t' :: 'o' :: 'o' :: 'l' :: '_' :: c :: rest) from rfl]
        rw [isLegalIdentifier_cons]
        have hallrest : ('o' :: 'o' :: 'l' :: '_' :: c :: rest).all isWordChar = true := by
          simp only [List.all_cons, hc, List.all_eq_true.mpr hrest]
          decide
        rw [hallrest]
        decide
      · rw [if_neg hd]
        rw [isLegalIdentifier_cons]
        have hhd : (('a' ≤ c && c ≤ 'z') || ('A' ≤ c && c ≤ 'Z') || c == '_') = true := by
          simp only [isWordChar, Bool.or_eq_true] at hc
          simp only [isAsciiDigit] at hd
          rcases hc with ((h1 | h2) | h3) | h4
          · simp [h1]
          · simp [h2]
          · exact absurd h3 hd
          · simp [h4]
        rw [hhd, List.all_eq_true.mpr hrest]
        decide

theorem toolShape_contains (nm safe B code : String) :
    containsStr ("\n// Tool: " ++ nm ++ "\nasync function " ++ safe
        ++ "Handler(params, env) \x7b\n" ++ B ++ "\n\x7d\n\nconst " ++ safe
        ++ "Schema = " ++ code ++ ";\n")
      (safe ++ "Handler") ∧
    containsStr ("\n// Tool: " ++ nm ++ "\nasync function " ++ safe
        ++ "Handler(params, env) \x7b\n" ++ B ++ "\n\x7d\n\nconst " ++ safe
        ++ "Schema = " ++ code ++ ";\n")
      (safe ++ "Schema") := by
  constructor
  · apply containsStr_of_parts _ ("\n// Tool: " ++ nm ++ "\nasync function ") _
      ("(params, env) \x7b\n" ++ B ++ "\n\x7d\n\nconst " ++ safe ++ "Schema = " ++ code ++ ";\n")
    rw [show ("Handler(params, env) \x7b\n" : String)
          = "Handler" ++ "(params, env) \x7b\n" from by decide]
    simp only [strAppend_assoc]
  · apply containsStr_of_parts _
      ("\n// Tool: " ++ nm ++ "\nasync function " ++ safe ++ "Handler(params, env) \x7b\n"
        ++ B ++ "\n\x7d\n\nconst ") _
      (" = " ++ code ++ ";\n")
    rw [show ("Schema = " : String) = "Schema" ++ " = " from by decide]
    simp only [strAppend_assoc]

theorem toolDecl_contains (t : Tool) :
    containsStr (toolDecl t) (toSafeIdentifier t.name ++ "Handler") ∧
    containsStr (toolDecl t) (toSafeIdentifier t.name ++ "Schema") := by
  have h := toolShape_contains t.name (toSafeIdentifier t.name)
    (if (if (if t.handler != "" then normalizeHandlerBody t.handler else "") != ""
          then indentJs (if t.handler != "" then normalizeHandlerBody t.handler else "") 2
          else "") != ""
        then (if (if t.handler != "" then normalizeHandlerBody t.handler else "") != ""
          then indentJs (if t.handler != "" then normalizeHandlerBody t.handler else "") 2
          else "")
        else "  // TODO: implement handler")
    (generateZodSchema t.inputSchema)
  exact h

theorem joinSep_decomp (sep : String) (l : List String) (s : String) (hmem : s ∈ l) :
    ∃ X Y, (joinSep sep l).toList = X ++ (s.toList ++ Y) := by
  induction l with
  | nil => cases hmem
  | cons a rest ih =>
      cases rest with
      | nil =>
          rcases List.mem_singleton.mp hmem with rfl
          exact ⟨[], [], by simp [joinSep]⟩
      | cons b bs =>
          rcases List.mem_cons.mp hmem with rfl | hmem2
          · refine ⟨[], (sep ++ joinSep sep (b :: bs)).toList, ?_⟩
            simp [joinSep, stoList_append]
          · rcases ih hmem2 with ⟨x, y, hxy⟩
            refine ⟨(a ++ sep).toList ++ x, y, ?_⟩
            have hxy2 : (joinSep sep (b :: bs)).data = x ++ (s.data ++ y) := hxy
            simp [joinSep, stoList_append, hxy2, List.append_assoc]

/-- C7: for every tool name string, the code generator's sanitization yields
a legal bare identifier matching `[A-Za-z_][A-Za-z0-9_]*` — each disallowed
character is replaced by `_`, and a fixed token is prefixed when the result
is empty or starts with a digit — and the generated handler and schema
declarations of `generateToolsCode` use this sanitized identifier. -/
theorem c7_tool_name_sanitization :
    (∀ name : String, isLegalIdentifier (toSafeIdentifier name) = true) ∧
    (∀ (tools : List Tool), ∀ t ∈ tools,
      containsStr (generateToolsCode tools) (toSafeIdentifier t.name ++ "Handler") ∧
      containsStr (generateToolsCode tools) (toSafeIdentifier t.name ++ "Schema")) := by
  constructor
  · exact toSafeIdentifier_legal
  · intro tools t hmem
    obtain ⟨X, Y, hXY⟩ :=
      joinSep_decomp "\n" (tools.map toolDecl) (toolDecl t) (List.mem_map_of_mem _ hmem)
    have hXY2 : (generateToolsCode tools).toList = X ++ ((toolDecl t).toList ++ Y) := hXY
    exact ⟨containsStr_extend_list X Y hXY2 (toolDecl_contains t).1,
           containsStr_extend_list X Y hXY2 (toolDecl_contains t).2⟩

/-- Witness for C7 at the spec's example tool name. -/
theorem c7_tool_name_sanitization_witness :
    isLegalIdentifier (toSafeIdentifier "get weather!") = true ∧
    containsStr
      (generateToolsCode
        [{ name := "get weather!", description := "", inputSchema := Json.null, handler := "" }])
      (toSafeIdentifier "get weather!" ++ "Handler") ∧
    containsStr
      (generateToolsCode
        [{ name := "get weather!", description := "", inputSchema := Json.null, handler := "" }])
      (toSafeIdentifier "get weather!" ++ "Schema") := by
  refine ⟨c7_tool_name_sanitization.1 "get weather!", ?_, ?_⟩
  · exact (c7_tool_name_sanitization.2
      [{ name := "get weather!", description := "", inputSchema := Json.null, handler := "" }]
      { name := "get weather!", description := "", inputSchema := Json.null, handler := "" }
      (List.mem_singleton.mpr rfl)).1
  · exact (c7_tool_name_sanitization.2
      [{ name := "get weather!", description := "", inputSchema := Json.null, handler := "" }]
      { name := "get weather!", description := "", inputSchema := Json.null, handler := "" }
      (List.mem_singleton.mpr rfl)).2

set_option maxRecDepth 40000 in
/-- C10: tool-name sanitization is not injective — the distinct names `a-b`
and `a_b` sanitize to the same identifier, so a version whose tool names are
unique still generates source with duplicate handler and schema
declarations. -/
theorem c10_sanitization_not_injective :
    toSafeIdentifier "a-b" = "a_b" ∧
    toSafeIdentifier "a_b" = "a_b" ∧
    ("a-b" : String) ≠ "a_b" ∧
    countOccurrences
      (generateToolsCode
        [{ name := "a-b", description := "", inputSchema := Json.null, handler := "" },
         { name := "a_b", description := "", inputSchema := Json.null, handler := "" }])
      "async function a_bHandler(" = 2 ∧
    countOccurrences
      (generateToolsCode
        [{ name := "a-b", description := "", inputSchema := Json.null, handler := "" },
         { name := "a_b", description := "", inputSchema := Json.null, handler := "" }])
      "const a_bSchema = " = 2 := by
  have hz : generateZodSchema Json.null = "z.any()" := by simp [generateZodSchema]
  refine ⟨by decide, by decide, by decide, ?_, ?_⟩
  · simp only [generateToolsCode, List.map, toolDecl, hz]
    decide
  · simp only [generateToolsCode, List.map, toolDecl, hz]
    decide

/-! ### C8: generator determinism -/

/-- C8: the code generator is deterministic. In the embedding every
effectful primitive reads the explicit `EffectWorld` (clock, randomness);
`generateWorkerScript` reads none of it, so two runs under arbitrary worlds
on identical input configuration produce byte-identical source text. -/
theorem c8_generator_deterministic (w1 w2 : EffectWorld) (config : McpConfig) :
    generateWorkerScriptW w1 config = generateWorkerScriptW w2 config := rfl

/-! ### C9: the broadcaster's fetch routes -/

/-- C9: `DeploymentStateDO.fetch` handles only `/stream`, `/initialize` and
GET status reads; every POST the publish coordinator sends to `/log`,
`/progress` or `/update-status` falls through to the 404 branch and leaves
the broadcaster's snapshot and subscriber set unchanged. -/
theorem c9_event_posts_fall_through (s : BroadcasterState) (connId now : Nat) (path : String)
    (hpath : path = "/log" ∨ path = "/progress" ∨ path = "/update-status") :
    doFetch s (coordinatorPost path) connId now
      = { status := 404, state := s, firstMessage := none } := by
  rcases hpath with rfl | rfl | rfl <;> rfl

/-- Witness for C9 at a concrete broadcaster state and path. -/
theorem c9_event_posts_fall_through_witness :
    doFetch { state := none, subscribers := [] } (coordinatorPost "/log") 0 0
      = { status := 404, state := { state := none, subscribers := [] }, firstMessage := none } :=
  c9_event_posts_fall_through { state := none, subscribers := [] } 0 0 "/log" (Or.inl rfl)

/-! ### C5: binding-config merge -/

theorem lookup_map_override (a b : RecordSS) (k : String) :
    (b.map (fun p => (p.1, ((a.lookup p.1).getD p.2)))).lookup k =
      (match b.lookup k with
       | some v => some ((a.lookup k).getD v)
       | none => none) := by
  induction b with
  | nil => rfl
  | cons p bs ih =>
      obtain ⟨k0, v0⟩ := p
      by_cases h : k == k0
      · have hk : k = k0 := by simpa using h
        subst hk
        simp [List.lookup]
      · simp only [List.map, List.lookup, h]
        exact ih

theorem lookup_filter_keep (a b : RecordSS) (k : String) (h : b.lookup k = none) :
    (a.filter (fun p => (b.lookup p.1).isNone)).lookup k = a.lookup k := by
  induction a with
  | nil => rfl
  | cons p as ih =>
      obtain ⟨k1, v1⟩ := p
      rw [List.filter_cons]
      by_cases hk : k == k1
      · have hkeq : k = k1 := by simpa using hk
        subst hkeq
        simp [List.lookup, h]
      · cases hpred : (((b.lookup k1).isNone : Bool))
        · simp only [hpred, Bool.false_eq_true, if_false]
          rw [ih]
          simp [List.lookup, hk]
        · simp only [hpred, if_true]
          simp only [List.lookup, hk]
          exact ih

theorem lookup_append_rec (xs ys : RecordSS) (k : String) :
    (xs ++ ys).lookup k = ((xs.lookup k).orElse (fun _ => ys.lookup k)) := by
  induction xs with
  | nil => rfl
  | cons p xs ih =>
      obtain ⟨k0, v0⟩ := p
      by_cases h : k == k0
      · simp [List.lookup, h, Option.orElse]
      · simp only [List.cons_append, List.lookup, h]
        simpa [List.lookup, h] using ih

theorem lookup_recMerge (b a : RecordSS) (k : String) :
    (recMerge b a).lookup k = ((a.lookup k).orElse (fun _ => b.lookup k)) := by
  unfold recMerge
  rw [lookup_append_rec, lookup_map_override]
  cases hb : b.lookup k with
  | some v =>
      cases ha : a.lookup k with
      | some w => rfl
      | none => rfl
  | none =>
      rw [lookup_filter_keep a b k hb]
      cases ha : a.lookup k with
      | some w => rfl
      | none => rfl

theorem lookupRec_mergeRecords (a b : Option RecordSS) (k : String) :
    lookupRec (mergeRecords a b) k = ((lookupRec a k).orElse (fun _ => lookupRec b k)) := by
  cases a with
  | none =>
      cases b with
      | none => rfl
      | some rb => simp [mergeRecords, lookupRec, lookup_recMerge]
  | some ra =>
      cases b with
      | none => simp [mergeRecords, lookupRec, lookup_recMerge]
      | some rb => simp [mergeRecords, lookupRec, lookup_recMerge]

theorem orElse_isSome_or (x : Option String) (f : Unit → Option String) :
    (x.orElse f).isSome = (x.isSome || (f ()).isSome) := by
  cases x with
  | none => rfl
  | some v => rfl

/-- C5: the rollback path reconstructs the binding configuration with
`mergeBindingConfig snapshot server`: for every binding kind and binding
name, the merged entry is the snapshot's when the snapshot has the name
(even when both sides have it), the server's otherwise; a name appears in
the merged record exactly when either side has it (union). -/
theorem c5_rollback_binding_merge (snapshotInput serverInput : Option BindingInput)
    (name : String) :
    let snapshotBindings := extractBindings snapshotInput
    let serverBindings := extractBindings serverInput
    let merged := mergeBindingConfig snapshotBindings.bindingConfig serverBindings.bindingConfig
    (lookupRec merged.d1 name
        = (lookupRec snapshotBindings.bindingConfig.d1 name).orElse
            (fun _ => lookupRec serverBindings.bindingConfig.d1 name)) ∧
    (lookupRec merged.kv name
        = (lookupRec snapshotBindings.bindingConfig.kv name).orElse
            (fun _ => lookupRec serverBindings.bindingConfig.kv name)) ∧
    (lookupRec merged.r2 name
        = (lookupRec snapshotBindings.bindingConfig.r2 name).orElse
            (fun _ => lookupRec serverBindings.bindingConfig.r2 name)) ∧
    ((lookupRec merged.d1 name).isSome
        = ((lookupRec snapshotBindings.bindingConfig.d1 name).isSome
            || (lookupRec serverBindings.bindingConfig.d1 name).isSome)) ∧
    ((lookupRec merged.kv name).isSome
        = ((lookupRec snapshotBindings.bindingConfig.kv name).isSome
            || (lookupRec serverBindings.bindingConfig.kv name).isSome)) ∧
    ((lookupRec merged.r2 name).isSome
        = ((lookupRec snapshotBindings.bindingConfig.r2 name).isSome
            || (lookupRec serverBindings.bindingConfig.r2 name).isSome)) := by
  intro snapshotBindings serverBindings merged
  have h1 := lookupRec_mergeRecords snapshotBindings.bindingConfig.d1
    serverBindings.bindingConfig.d1 name
  have h2 := lookupRec_mergeRecords snapshotBindings.bindingConfig.kv
    serverBindings.bindingConfig.kv name
  have h3 := lookupRec_mergeRecords snapshotBindings.bindingConfig.r2
    serverBindings.bindingConfig.r2 name
  refine ⟨h1, h2, h3, ?_, ?_, ?_⟩
  · rw [show merged.d1 = mergeRecords snapshotBindings.bindingConfig.d1
        serverBindings.bindingConfig.d1 from rfl, lookupRec_mergeRecords, orElse_isSome_or]
  · rw [show merged.kv = mergeRecords snapshotBindings.bindingConfig.kv
        serverBindings.bindingConfig.kv from rfl, lookupRec_mergeRecords, orElse_isSome_or]
  · rw [show merged.r2 = mergeRecords snapshotBindings.bindingConfig.r2
        serverBindings.bindingConfig.r2 from rfl, lookupRec_mergeRecords, orElse_isSome_or]

/-! ### C2: deploy failure leaves the registry untouched -/

theorem mcp_name_ne_empty (s : String) : ("mcp-" ++ s) ≠ "" := by
  intro h
  have h2 : ("mcp-" ++ s).toList = [] := by rw [h]; rfl
  rw [stoList_append] at h2
  simp at h2

theorem generateWorkerScript_ok (config : McpConfig) (hn : config.name ≠ "")
    (hv : config.version ≠ "") : ∃ s, generateWorkerScript config = .ok s := by
  unfold generateWorkerScript
  rw [if_neg ?_]
  · exact ⟨_, rfl⟩
  · simp [hn, hv]

/-- C2: when the Deploy API call of a publish fails, the operation ends as
Failed with the captured message and the registry is unchanged — every
`mcp_versions` row (in particular the previously active version's
`is_active` flag, hence the service's active set) and every `mcp_servers`
row (in particular the service's `current_version` pointer) keeps the value
it had before the publish, and the bundle store is untouched. The only
registry field the catch block writes is the `deployments` row recording
this operation's own failure. -/
theorem c2_deploy_failure_preserves_registry (p : PublishParams) (errMsg : String)
    (now : Nat) (accountId : String) (reg : Registry)
    (hbundle : reg.bundles.contains p.bundleKey = true)
    (hversion : p.version ≠ "") :
    (executePublish p (some errMsg) now accountId reg).opStatus = OpStatus.failed ∧
    (executePublish p (some errMsg) now accountId reg).opError = some errMsg ∧
    (executePublish p (some errMsg) now accountId reg).registry.versions = reg.versions ∧
    (executePublish p (some errMsg) now accountId reg).registry.servers = reg.servers ∧
    (executePublish p (some errMsg) now accountId reg).registry.bundles = reg.bundles ∧
    activeVersions (executePublish p (some errMsg) now accountId reg).registry p.mcpId
      = activeVersions reg p.mcpId := by
  obtain ⟨script, hscript⟩ := generateWorkerScript_ok
    { name := "mcp-" ++ p.mcpId, version := p.version, tools := p.configTools,
      bindings := some (extractBindings p.configBindings).bindings, authType := p.authType }
    (mcp_name_ne_empty p.mcpId) hversion
  simp only [executePublish, hbundle, Bool.not_true, if_false, hscript]
  cases hdep : p.deploymentId with
  | none => simp [publishFailure, completeDeployment, hdep, activeVersions]
  | some d => simp [publishFailure, completeDeployment, hdep, activeVersions]

/-- Witness for C2 at a concrete failing publish. -/
theorem c2_deploy_failure_preserves_registry_witness :
    (executePublish
        { mcpId := "svc1", version := "1.0.1", bundleKey := "k", configTools := [],
          configBindings := none, authType := AuthType.api_key, deploymentId := some "dep1" }
        (some "DeployError") 7 "acct"
        { servers := [{ id := "svc1", currentVersion := some "1.0.0" }],
          versions := [{ id := "v1", mcpId := "svc1", version := "1.0.0", bundleKey := "k0",
                         isActive := 1 }],
          deployments := [], bundles := ["k"] }).opStatus = OpStatus.failed ∧
    (executePublish
        { mcpId := "svc1", version := "1.0.1", bundleKey := "k", configTools := [],
          configBindings := none, authType := AuthType.api_key, deploymentId := some "dep1" }
        (some "DeployError") 7 "acct"
        { servers := [{ id := "svc1", currentVersion := some "1.0.0" }],
          versions := [{ id := "v1", mcpId := "svc1", version := "1.0.0", bundleKey := "k0",
                         isActive := 1 }],
          deployments := [], bundles := ["k"] }).opError = some "DeployError" ∧
    (executePublish
        { mcpId := "svc1", version := "1.0.1", bundleKey := "k", configTools := [],
          configBindings := none, authType := AuthType.api_key, deploymentId := some "dep1" }
        (some "DeployError") 7 "acct"
        { servers := [{ id := "svc1", currentVersion := some "1.0.0" }],
          versions := [{ id := "v1", mcpId := "svc1", version := "1.0.0", bundleKey := "k0",
                         isActive := 1 }],
          deployments := [], bundles := ["k"] }).registry.versions
      = [{ id := "v1", mcpId := "svc1", version := "1.0.0", bundleKey := "k0", isActive := 1 }] ∧
    (executePublish
        { mcpId := "svc1", version := "1.0.1", bundleKey := "k", configTools := [],
          configBindings := none, authType := AuthType.api_key, deploymentId := some "dep1" }
        (some "DeployError") 7 "acct"
        { servers := [{ id := "svc1", currentVersion := some "1.0.0" }],
          versions := [{ id := "v1", mcpId := "svc1", version := "1.0.0", bundleKey := "k0",
                         isActive := 1 }],
          deployments := [], bundles := ["k"] }).registry.servers
      = [{ id := "svc1", currentVersion := some "1.0.0" }] ∧
    (executePublish
        { mcpId := "svc1", version := "1.0.1", bundleKey := "k", configTools := [],
          configBindings := none, authType := AuthType.api_key, deploymentId := some "dep1" }
        (some "DeployError") 7 "acct"
        { servers := [{ id := "svc1", currentVersion := some "1.0.0" }],
          versions := [{ id := "v1", mcpId := "svc1", version := "1.0.0", bundleKey := "k0",
                         isActive := 1 }],
          deployments := [], bundles := ["k"] }).registry.bundles = ["k"] ∧
    activeVersions
      (executePublish
        { mcpId := "svc1", version := "1.0.1", bundleKey := "k", configTools := [],
          configBindings := none, authType := AuthType.api_key, deploymentId := some "dep1" }
        (some "DeployError") 7 "acct"
        { servers := [{ id := "svc1", currentVersion := some "1.0.0" }],
          versions := [{ id := "v1", mcpId := "svc1", version := "1.0.0", bundleKey := "k0",
                         isActive := 1 }],
          deployments := [], bundles := ["k"] }).registry "svc1"
      = activeVersions
          { servers := [{ id := "svc1", currentVersion := some "1.0.0" }],
            versions := [{ id := "v1", mcpId := "svc1", version := "1.0.0", bundleKey := "k0",
                           isActive := 1 }],
            deployments := [], bundles := ["k"] } "svc1" :=
  c2_deploy_failure_preserves_registry
    { mcpId := "svc1", version := "1.0.1", bundleKey := "k", configTools := [],
      configBindings := none, authType := AuthType.api_key, deploymentId := some "dep1" }
    "DeployError" 7 "acct"
    { servers := [{ id := "svc1", currentVersion := some "1.0.0" }],
      versions := [{ id := "v1", mcpId := "svc1", version := "1.0.0", bundleKey := "k0",
                     isActive := 1 }],
      deployments := [], bundles := ["k"] }
    (by decide) (by decide)

/-! ### C3: the progress event sequence -/

/-- The six-step progress sequence of a non-failing publish. -/
def publishProgressSequence : List (String × Nat) :=
  [("initializing", 5), ("fetching_bundle", 20), ("preparing_worker", 40),
   ("deploying", 70), ("updating_routing", 85), ("completed", 100)]

/-- C3: with a deploymentId present, a publish that completes emits exactly
the progress percentages 5, 20, 40, 70, 85, 100 in that order (steps
initializing, fetching_bundle, preparing_worker, deploying, updating_routing,
completed), and a publish that fails emits a prefix of that sequence
followed by the terminal `failed` event — the remaining named steps are
never emitted. -/
theorem c3_progress_sequence (p : PublishParams) (d : String) (deployResult : Option String)
    (now : Nat) (accountId : String) (reg : Registry)
    (hdep : p.deploymentId = some d) :
    ((executePublish p deployResult now accountId reg).opStatus = OpStatus.completed →
      (executePublish p deployResult now accountId reg).progressEvents
        = publishProgressSequence) ∧
    ((executePublish p deployResult now accountId reg).opStatus = OpStatus.failed →
      ∃ k, k ≤ 5 ∧ (executePublish p deployResult now accountId reg).progressEvents
          = publishProgressSequence.take k ++ [("failed", 100)]) := by
  cases hbun : reg.bundles.contains p.bundleKey with
  | false =>
      simp only [executePublish, hbun, Bool.not_false, if_true, hdep, emitIf, publishFailure,
        List.nil_append]
      refine ⟨fun hc => absurd hc (by decide), fun _ => ⟨2, by omega, by simp [publishProgressSequence]⟩⟩
  | true =>
      cases hgen : generateWorkerScript
          { name := "mcp-" ++ p.mcpId, version := p.version, tools := p.configTools,
            bindings := some (extractBindings p.configBindings).bindings,
            authType := p.authType } with
      | error e =>
          simp only [executePublish, hbun, Bool.not_true, Bool.false_eq_true, if_false, hdep,
            emitIf, hgen, publishFailure, List.nil_append]
          refine ⟨fun hc => absurd hc (by decide), fun _ => ⟨3, by omega, by simp [publishProgressSequence]⟩⟩
      | ok script =>
          cases deployResult with
          | some e =>
              simp only [executePublish, hbun, Bool.not_true, Bool.false_eq_true, if_false,
                hdep, emitIf, hgen, publishFailure, List.nil_append]
              refine ⟨fun hc => absurd hc (by decide), fun _ => ⟨4, by omega, by simp [publishProgressSequence]⟩⟩
          | none =>
              simp only [executePublish, hbun, Bool.not_true, Bool.false_eq_true, if_false,
                hdep, emitIf, hgen, List.nil_append]
              refine ⟨fun _ => by simp [publishProgressSequence], fun hc => absurd hc (by decide)⟩

/-- Witness for C3 at a concrete successful publish. -/
theorem c3_progress_sequence_witness :
    (executePublish
        { mcpId := "svc1", version := "1.0.1", bundleKey := "k", configTools := [],
          configBindings := none, authType := AuthType.public, deploymentId := some "dep1" }
        none 3 "acct"
        { servers := [], versions := [], deployments := [], bundles := ["k"] }).progressEvents
      = publishProgressSequence :=
  (c3_progress_sequence
    { mcpId := "svc1", version := "1.0.1", bundleKey := "k", configTools := [],
      configBindings := none, authType := AuthType.public, deploymentId := some "dep1" }
    "dep1" none 3 "acct"
    { servers := [], versions := [], deployments := [], bundles := ["k"] }
    rfl).1 (by decide)

/-! ### C6: rollback rejections -/

/-- C6: a rollback request whose target version does not exist for the
service is rejected with 404, and one whose target version is already
active is rejected with 400 (the no-op rejection); in both cases the
registry — version records, service pointers and deploy state — is returned
unchanged. -/
theorem c6_rollback_rejections (mcpId version : String) (now : Nat)
    (deployResult : Option String) (uuid : String) (reg : Registry) :
    ((reg.versions.filter (fun r => r.mcpId == mcpId && r.version == version)).head? = none →
      rollbackRoute mcpId version now deployResult uuid reg = (404, reg)) ∧
    (∀ vr,
      (reg.versions.filter (fun r => r.mcpId == mcpId && r.version == version)).head? = some vr →
      vr.isActive ≠ 0 →
      rollbackRoute mcpId version now deployResult uuid reg = (400, reg)) := by
  constructor
  · intro h
    simp [rollbackRoute, h]
  · intro vr h hact
    simp [rollbackRoute, h, bne_iff_ne, hact]

/-- Witness for C6: a missing target version gives 404 and an
already-active target gives 400, both leaving the registry untouched. -/
theorem c6_rollback_rejections_witness :
    rollbackRoute "m" "2.0.0" 0 none "u"
      { servers := [], deployments := [], bundles := [],
        versions := [{ id := "v1", mcpId := "m", version := "1.0.0", bundleKey := "k",
                       isActive := 1 }] }
      = (404, { servers := [], deployments := [], bundles := [],
                versions := [{ id := "v1", mcpId := "m", version := "1.0.0", bundleKey := "k",
                               isActive := 1 }] }) ∧
    rollbackRoute "m" "1.0.0" 0 none "u"
      { servers := [], deployments := [], bundles := [],
        versions := [{ id := "v1", mcpId := "m", version := "1.0.0", bundleKey := "k",
                       isActive := 1 }] }
      = (400, { servers := [], deployments := [], bundles := [],
                versions := [{ id := "v1", mcpId := "m", version := "1.0.0", bundleKey := "k",
                               isActive := 1 }] }) :=
  ⟨(c6_rollback_rejections "m" "2.0.0" 0 none "u" _).1 rfl,
   (c6_rollback_rejections "m" "1.0.0" 0 none "u" _).2
     { id := "v1", mcpId := "m", version := "1.0.0", bundleKey := "k", isActive := 1 }
     rfl (by decide)⟩

/-! ### C1: the single-active-version invariant -/

theorem completeDeployment_versions (dep : Option String) (st : String)
    (wn em : Option String) (now : Nat) (reg : Registry) :
    (completeDeployment dep st wn em now reg).versions = reg.versions := by
  cases dep <;> simp [completeDeployment]

theorem completeDeployment_servers (dep : Option String) (st : String)
    (wn em : Option String) (now : Nat) (reg : Registry) :
    (completeDeployment dep st wn em now reg).servers = reg.servers := by
  cases dep <;> simp [completeDeployment]

theorem filter_key_singleton {β : Type} [BEq β] [LawfulBEq β] (key : VersionRecord → β)
    (l : List VersionRecord) (h : (l.map key).Nodup) (r0 : VersionRecord) (hmem : r0 ∈ l) :
    l.filter (fun r => key r == key r0) = [r0] := by
  induction l with
  | nil => cases hmem
  | cons a as ih =>
      rw [List.map_cons, List.nodup_cons] at h
      obtain ⟨hnotin, hnd⟩ := h
      rw [List.filter_cons]
      by_cases ha : (key a == key r0) = true
      · have haeq : key a = key r0 := by simpa using ha
        have hr0 : r0 = a := by
          rcases List.mem_cons.mp hmem with rfl | hmem2
          · rfl
          · exact absurd (haeq ▸ List.mem_map_of_mem key hmem2) hnotin
        subst hr0
        rw [if_pos ha]
        have hnil : as.filter (fun r => key r == key r0) = [] := by
          rw [List.filter_eq_nil_iff]
          intro x hx hpx
          have hxeq : key x = key r0 := by simpa using hpx
          exact hnotin (haeq ▸ hxeq ▸ List.mem_map_of_mem key hx)
        rw [hnil]
      · rw [if_neg (by simpa using ha)]
        have hr0mem : r0 ∈ as := by
          rcases List.mem_cons.mp hmem with rfl | hmem2
          · exact absurd (by simp) ha
          · exact hmem2
        exact ih hnd hr0mem

theorem publish_versions_active (mcp v : String) (now : Nat) (l : List VersionRecord)
    (huniq : (l.map (fun r => (r.mcpId, r.version))).Nodup)
    (r0 : VersionRecord) (hmem : r0 ∈ l) (hm : r0.mcpId = mcp) (hv : r0.version = v) :
    (((l.map (fun r => if r.mcpId == mcp && r.isActive == 1 then { r with isActive := 0 } else r)).map
          (fun r => if r.mcpId == mcp && r.version == v then
            { r with deployedAt := some now, isActive := 1 } else r)).filter
        (fun r => r.mcpId == mcp && r.isActive == 1)).map (fun r => r.version) = [v] := by
  rw [List.map_map]
  rw [List.filter_map]
  have hstep : List.filter
      ((fun r => r.mcpId == mcp && r.isActive == 1) ∘
        ((fun r => if r.mcpId == mcp && r.version == v then
            { r with deployedAt := some now, isActive := 1 } else r) ∘
          (fun r => if r.mcpId == mcp && r.isActive == 1 then
            { r with isActive := 0 } else r))) l
      = List.filter (fun x => (fun r => (r.mcpId, r.version)) x
          == (fun r => (r.mcpId, r.version)) r0) l := by
    apply List.filter_congr
    intro r _
    simp only [Function.comp]
    show _ = ((r.mcpId, r.version) == (r0.mcpId, r0.version))
    rw [show ((r.mcpId, r.version) == (r0.mcpId, r0.version))
          = (r.mcpId == r0.mcpId && r.version == r0.version) from rfl, hm, hv]
    by_cases h1 : (r.mcpId == mcp) = true
    · by_cases h2 : (r.version == v) = true
      · by_cases h3 : (r.isActive == 1) = true
        · simp [h1, h2, h3]
        · simp [h1, h2, h3]
      · by_cases h3 : (r.isActive == 1) = true
        · simp [h1, h2, h3]
        · simp [h1, h2, h3]
    · simp [h1]
  rw [hstep, filter_key_singleton (fun r => (r.mcpId, r.version)) l huniq r0 hmem]
  simp only [List.map_cons, List.map_nil, Function.comp]
  by_cases h3 : (r0.isActive == 1) = true
  · simp [hm, hv, h3]
  · simp [hm, hv, h3]

theorem publish_servers_pointer (mcp v wn eu : String) (now : Nat) (l : List ServerRecord) :
    ∀ s ∈ l.map (fun s => if s.id == mcp then
        { s with currentVersion := some v, workerName := some wn,
                 endpointUrl := some eu, updatedAt := now } else s),
      s.id = mcp → s.currentVersion = some v := by
  intro s hs hid
  rcases List.mem_map.mp hs with ⟨t, _, rfl⟩
  by_cases h : (t.id == mcp) = true
  · simp [h]
  · rw [if_neg h] at hid ⊢
    exact absurd (by simp [hid]) h

theorem rollback_servers_pointer (mcp v wn : String) (now : Nat) (l : List ServerRecord) :
    ∀ s ∈ l.map (fun s => if s.id == mcp then
        { s with currentVersion := some v, workerName := some wn, updatedAt := now } else s),
      s.id = mcp → s.currentVersion = some v := by
  intro s hs hid
  rcases List.mem_map.mp hs with ⟨t, _, rfl⟩
  by_cases h : (t.id == mcp) = true
  · simp [h]
  · rw [if_neg h] at hid ⊢
    exact absurd (by simp [hid]) h

theorem rollback_versions_active (mcp tv : String) (now : Nat) (l : List VersionRecord)
    (hids : (l.map (fun r => r.id)).Nodup)
    (target : VersionRecord) (hmem : target ∈ l) (hm : target.mcpId = mcp)
    (hv : target.version = tv) :
    (((l.map (fun r => if r.mcpId == mcp && r.isActive == 1 then
            { r with isActive := 0 } else r)).map
          (fun r => if r.id == target.id then
            { r with isActive := 1, deployedAt := some now } else r)).filter
        (fun r => r.mcpId == mcp && r.isActive == 1)).map (fun r => r.version) = [tv] := by
  rw [List.map_map]
  rw [List.filter_map]
  have hstep : List.filter
      ((fun r => r.mcpId == mcp && r.isActive == 1) ∘
        ((fun r => if r.id == target.id then
            { r with isActive := 1, deployedAt := some now } else r) ∘
          (fun r => if r.mcpId == mcp && r.isActive == 1 then
            { r with isActive := 0 } else r))) l
      = List.filter (fun x => (fun r => r.id) x == (fun r => r.id) target) l := by
    apply List.filter_congr
    intro r hr
    simp only [Function.comp]
    show _ = (r.id == target.id)
    by_cases hid : (r.id == target.id) = true
    · have hideq : r.id = target.id := by simpa using hid
      have hreq : r = target := List.inj_on_of_nodup_map hids hr hmem hideq
      subst hreq
      by_cases h3 : (r.isActive == 1) = true
      · simp [hm, h3, hid]
      · simp [hm, h3, hid]
    · by_cases h1 : (r.mcpId == mcp) = true
      · by_cases h3 : (r.isActive == 1) = true
        · simp [h1, h3, hid]
        · simp [h1, h3, hid]
      · simp [h1, hid]
  rw [hstep, filter_key_singleton (fun r => r.id) l hids target hmem]
  simp only [List.map_cons, List.map_nil, Function.comp]
  by_cases h3 : (target.isActive == 1) = true
  · simp [hm, hv, h3]
  · simp [hm, hv, h3]

/-- C1: starting from a registry with at most one active version of a
service, a successful publish of version V leaves exactly one active
version of that service — V itself — and points the service's
currentVersion at V; likewise a successful rollback to version V0 leaves
exactly one active version — V0 — and points currentVersion at V0. -/
theorem c1_single_active_version :
    (∀ (p : PublishParams) (deployResult : Option String) (now : Nat) (accountId : String)
        (reg : Registry),
      (activeVersions reg p.mcpId).length ≤ 1 →
      (reg.versions.map (fun r => (r.mcpId, r.version))).Nodup →
      (∃ r0 ∈ reg.versions, r0.mcpId = p.mcpId ∧ r0.version = p.version) →
      (executePublish p deployResult now accountId reg).opStatus = OpStatus.completed →
      ((activeVersions (executePublish p deployResult now accountId reg).registry p.mcpId).map
          (fun r => r.version) = [p.version] ∧
        ∀ s ∈ (executePublish p deployResult now accountId reg).registry.servers,
          s.id = p.mcpId → s.currentVersion = some p.version)) ∧
    (∀ (mcpId targetVersion : String) (now : Nat) (deployResult : Option String)
        (uuid : String) (reg reg2 : Registry),
      (activeVersions reg mcpId).length ≤ 1 →
      (reg.versions.map (fun r => r.id)).Nodup →
      rollbackRun mcpId targetVersion now deployResult uuid reg = (reg2, none) →
      ((activeVersions reg2 mcpId).map (fun r => r.version) = [targetVersion] ∧
        ∀ s ∈ reg2.servers, s.id = mcpId → s.currentVersion = some targetVersion)) := by
  constructor
  · intro p deployResult now accountId reg _hatmost huniq hex hsucc
    obtain ⟨r0, hmem, hm, hv⟩ := hex
    cases hbun : reg.bundles.contains p.bundleKey with
    | false =>
        exfalso
        have hb : ¬(p.bundleKey ∈ reg.bundles) := by simpa using hbun
        rw [show (executePublish p deployResult now accountId reg).opStatus
            = OpStatus.failed from by simp [executePublish, hb, publishFailure]] at hsucc
        exact OpStatus.noConfusion hsucc
    | true =>
        have hb : p.bundleKey ∈ reg.bundles := by simpa using hbun
        cases hgen : generateWorkerScript
            { name := "mcp-" ++ p.mcpId, version := p.version, tools := p.configTools,
              bindings := some (extractBindings p.configBindings).bindings,
              authType := p.authType } with
        | error e =>
            exfalso
            rw [show (executePublish p deployResult now accountId reg).opStatus
                = OpStatus.failed from by
                  simp [executePublish, hb, hgen, publishFailure]] at hsucc
            exact OpStatus.noConfusion hsucc
        | ok script =>
            cases deployResult with
            | some e =>
                exfalso
                rw [show (executePublish p (some e) now accountId reg).opStatus
                    = OpStatus.failed from by
                      simp [executePublish, hb, hgen, publishFailure]] at hsucc
                exact OpStatus.noConfusion hsucc
            | none =>
                have hver : (executePublish p none now accountId reg).registry.versions
                    = ((reg.versions.map (fun r => if r.mcpId == p.mcpId && r.isActive == 1
                          then { r with isActive := 0 } else r)).map
                        (fun r => if r.mcpId == p.mcpId && r.version == p.version
                          then { r with deployedAt := some now, isActive := 1 } else r)) := by
                  simp [executePublish, hb, hgen, completeDeployment_versions]
                have hsrv : (executePublish p none now accountId reg).registry.servers
                    = reg.servers.map (fun s => if s.id == p.mcpId then
                        { s with currentVersion := some p.version,
                                 workerName := some (workerNameFor p.mcpId p.version),
                                 endpointUrl := some ("https://" ++ workerNameFor p.mcpId p.version
                                    ++ "." ++ accountId ++ ".workers.dev"),
                                 updatedAt := now } else s) := by
                  simp [executePublish, hb, hgen, completeDeployment_servers]
                constructor
                · show (((executePublish p none now accountId reg).registry.versions.filter
                      (fun r => r.mcpId == p.mcpId && r.isActive == 1)).map
                        (fun r => r.version)) = [p.version]
                  rw [hver]
                  exact publish_versions_active p.mcpId p.version now reg.versions huniq
                    r0 hmem hm hv
                · intro s hs hid
                  rw [hsrv] at hs
                  exact publish_servers_pointer p.mcpId p.version
                    (workerNameFor p.mcpId p.version)
                    ("https://" ++ workerNameFor p.mcpId p.version ++ "." ++ accountId
                      ++ ".workers.dev") now reg.servers s hs hid
  · intro mcpId targetVersion now deployResult uuid reg reg2 _hatmost hids hrun
    simp only [rollbackRun] at hrun
    split at hrun
    · exact absurd (congrArg Prod.snd hrun) (by simp)
    · rename_i target htgt
      split at hrun
      · exact absurd (congrArg Prod.snd hrun) (by simp)
      · rename_i mcp hmcp
        split at hrun
        · exact absurd (congrArg Prod.snd hrun) (by simp)
        · split at hrun
          · exact absurd (congrArg Prod.snd hrun) (by simp)
          · rename_i script hgen
            split at hrun
            · exact absurd (congrArg Prod.snd hrun) (by simp)
            · injection hrun with h1 h2
              subst h1
              have htf : target ∈ reg.versions.filter
                  (fun r => r.mcpId == mcpId && r.version == targetVersion) := by
                cases hfl : (reg.versions.filter
                    (fun r => r.mcpId == mcpId && r.version == targetVersion)) with
                | nil => rw [hfl] at htgt; cases htgt
                | cons a t =>
                    rw [hfl] at htgt
                    injection htgt with h
                    rw [← h]
                    exact List.mem_cons_self a t
              have hmemv := List.mem_of_mem_filter htf
              have hpred := List.of_mem_filter htf
              have htm : target.mcpId = mcpId := by
                have := (Bool.and_eq_true _ _).mp hpred
                simpa using this.1
              have htv : target.version = targetVersion := by
                have := (Bool.and_eq_true _ _).mp hpred
                simpa using this.2
              constructor
              · show ((_ : Registry).versions.filter
                    (fun r => r.mcpId == mcpId && r.isActive == 1)).map
                      (fun r => r.version) = [targetVersion]
                simp only []
                exact rollback_versions_active mcpId targetVersion now reg.versions hids
                  target hmemv htm htv
              · intro s hs hid
                simp only [] at hs
                exact rollback_servers_pointer mcpId targetVersion
                  (workerNameFor mcpId targetVersion) now reg.servers s hs hid

/-- Witness for C1: a concrete publish of version 2.0.0 and a concrete
rollback to version 1.0.0, each leaving exactly one active version. -/
theorem c1_single_active_version_witness :
    ((activeVersions
        (executePublish
          { mcpId := "m", version := "2.0.0", bundleKey := "k2", configTools := [],
            configBindings := none, authType := AuthType.public, deploymentId := none }
          none 9 "acct"
          { servers := [{ id := "m", currentVersion := some "1.0.0" }],
            versions :=
              [{ id := "v1", mcpId := "m", version := "1.0.0", bundleKey := "k1", isActive := 1 },
               { id := "v2", mcpId := "m", version := "2.0.0", bundleKey := "k2", isActive := 0 }],
            deployments := [], bundles := ["k2"] }).registry "m").map (fun r => r.version)
      = ["2.0.0"]) ∧
    ((activeVersions
        { servers := [{ id := "m", currentVersion := some "1.0.0",
                        workerName := some "mcp-m-v1-0-0", endpointUrl := none,
                        authType := none, bindings := none, updatedAt := 5 }],
          versions :=
            [{ id := "v1", mcpId := "m", version := "1.0.0", bundleKey := "k1",
               isActive := 1, deployedAt := some 5 },
             { id := "v2", mcpId := "m", version := "2.0.0", bundleKey := "k2",
               isActive := 0 }],
          deployments := [{ id := "u1", mcpId := "m", versionId := "v1",
                            operationType := "rollback", status := "completed",
                            workerName := some "mcp-m-v1-0-0", errorMessage := none,
                            startedAt := some 5, completedAt := some 5 }],
          bundles := ["k1"] } "m").map (fun r => r.version) = ["1.0.0"]) := by
  constructor
  · exact (c1_single_active_version.1
      { mcpId := "m", version := "2.0.0", bundleKey := "k2", configTools := [],
        configBindings := none, authType := AuthType.public, deploymentId := none }
      none 9 "acct"
      { servers := [{ id := "m", currentVersion := some "1.0.0" }],
        versions :=
          [{ id := "v1", mcpId := "m", version := "1.0.0", bundleKey := "k1", isActive := 1 },
           { id := "v2", mcpId := "m", version := "2.0.0", bundleKey := "k2", isActive := 0 }],
        deployments := [], bundles := ["k2"] }
      (by decide) (by decide)
      ⟨{ id := "v2", mcpId := "m", version := "2.0.0", bundleKey := "k2", isActive := 0 },
        List.Mem.tail _ (List.Mem.head _), rfl, rfl⟩
      (by decide)).1
  · exact (c1_single_active_version.2 "m" "1.0.0" 5 none "u1"
      { servers := [{ id := "m", currentVersion := some "2.0.0" }],
        versions :=
          [{ id := "v1", mcpId := "m", version := "1.0.0", bundleKey := "k1", isActive := 0 },
           { id := "v2", mcpId := "m", version := "2.0.0", bundleKey := "k2", isActive := 1 }],
        deployments := [], bundles := ["k1"] }
      { servers := [{ id := "m", currentVersion := some "1.0.0",
                      workerName := some "mcp-m-v1-0-0", endpointUrl := none,
                      authType := none, bindings := none, updatedAt := 5 }],
        versions :=
          [{ id := "v1", mcpId := "m", version := "1.0.0", bundleKey := "k1",
             isActive := 1, deployedAt := some 5 },
           { id := "v2", mcpId := "m", version := "2.0.0", bundleKey := "k2",
             isActive := 0 }],
        deployments := [{ id := "u1", mcpId := "m", versionId := "v1",
                          operationType := "rollback", status := "completed",
                          workerName := some "mcp-m-v1-0-0", errorMessage := none,
                          startedAt := some 5, completedAt := some 5 }],
        bundles := ["k1"] }
      (by decide) (by decide) rfl).1

/-- C4 (divergence demonstration): after a deployment is initialized, the
coordinator's POSTs of its log, progress and status events to the
broadcaster all return 404 and change nothing, so a subscriber that
connects afterwards receives a `state` replay whose snapshot still has an
empty `logs` list and the initial `pending` status — it contains none of
the events emitted so far. -/
theorem c4_snapshot_misses_emitted_events :
    ((doFetch
        ((doFetch { state := none, subscribers := [] }
          { method := HttpMethod.post, pathname := "/initialize", accept := none,
            bodyDeploymentId := some "dep-1" } 0 5).state)
        (coordinatorPost "/log") 1 6).status = 404) ∧
    ((doFetch
        ((doFetch
          ((doFetch { state := none, subscribers := [] }
            { method := HttpMethod.post, pathname := "/initialize", accept := none,
              bodyDeploymentId := some "dep-1" } 0 5).state)
          (coordinatorPost "/log") 1 6).state)
        (coordinatorPost "/progress") 2 7).status = 404) ∧
    ((doFetch
        ((doFetch
          ((doFetch
            ((doFetch { state := none, subscribers := [] }
              { method := HttpMethod.post, pathname := "/initialize", accept := none,
                bodyDeploymentId := some "dep-1" } 0 5).state)
            (coordinatorPost "/log") 1 6).state)
          (coordinatorPost "/progress") 2 7).state)
        (coordinatorPost "/update-status") 3 8).status = 404) ∧
    ((doFetch
        ((doFetch
          ((doFetch
            ((doFetch { state := none, subscribers := [] }
              { method := HttpMethod.post, pathname := "/initialize", accept := none,
                bodyDeploymentId := some "dep-1" } 0 5).state)
            (coordinatorPost "/log") 1 6).state)
          (coordinatorPost "/progress") 2 7).state)
        (coordinatorPost "/update-status") 3 8).state
      = (doFetch { state := none, subscribers := [] }
          { method := HttpMethod.post, pathname := "/initialize", accept := none,
            bodyDeploymentId := some "dep-1" } 0 5).state) ∧
    ((doFetch
        ((doFetch
          ((doFetch
            ((doFetch
              ((doFetch { state := none, subscribers := [] }
                { method := HttpMethod.post, pathname := "/initialize", accept := none,
                  bodyDeploymentId := some "dep-1" } 0 5).state)
              (coordinatorPost "/log") 1 6).state)
            (coordinatorPost "/progress") 2 7).state)
          (coordinatorPost "/update-status") 3 8).state)
        { method := HttpMethod.get, pathname := "/stream",
          accept := some "text/event-stream", bodyDeploymentId := none } 4 9).firstMessage
      = some { id := "dep-1", status := "pending", logs := [], error := none,
               startedAt := some 5, completedAt := none, createdAt := 5, updatedAt := 5 }) := by
  refine ⟨rfl, rfl, rfl, rfl, rfl⟩

end McpManager
